import Mathlib

/-!
Shallow embedding of the socket.io chat gateway in src/app/sockets.py.

Event payloads are dynamic (Python dict of arbitrary values), so payloads
are modelled by the inductive type PyVal.  The external collaborators
(user store, room store, message store, JWT decoding) are not part of the
core source; they are modelled as an environment record Env whose fields
follow the interfaces of the spec.  Each socket.io handler becomes a Lean
function from the environment, the session id, the payload and the mutable
global state to the new state plus the list of observable actions (emits,
room enter/leave, forced disconnects, message persistence, file appends).
Handlers that index into the payload dict (which can raise KeyError) or
write a non-bytes chunk (TypeError) return Option; a raised exception is
swallowed by the socket.io dispatcher, leaving the state unchanged.
-/

namespace ChatApp

/-- Dynamic (Python-style) value carried in a socket.io event payload. -/
inductive PyVal where
  | none
  | bool (b : Bool)
  | int (n : Int)
  | str (s : String)
  | bytes (b : List Nat)
  | dict (entries : List (String × PyVal))

/-- Python truthiness, as used by checks like if not token. -/
def PyVal.truthy : PyVal → Bool
  | .none => false
  | .bool b => b
  | .int n => n != 0
  | .str s => s != ""
  | .bytes b => !b.isEmpty
  | .dict d => !d.isEmpty

/-- isinstance(v, str). -/
def PyVal.isStr : PyVal → Bool
  | .str _ => true
  | _ => false

/-- isinstance(v, dict). -/
def PyVal.isDict : PyVal → Bool
  | .dict _ => true
  | _ => false

/-- v is None. -/
def PyVal.isNone : PyVal → Bool
  | .none => true
  | _ => false

/-- Python str() rendering, used by the f-string that builds the upload
path.  Scalar cases follow Python exactly; the rendering of composite
values is abstracted (no claim builds a path from a composite value). -/
def PyVal.pyStr : PyVal → String
  | .none => "None"
  | .bool true => "True"
  | .bool false => "False"
  | .int n => toString n
  | .str s => s
  | .bytes _ => "<bytes>"
  | .dict _ => "<dict>"

/-- Python dict.get(k): the value when present, None when absent. -/
def pyGet (d : List (String × PyVal)) (k : String) : PyVal :=
  (List.lookup k d).getD PyVal.none

/-- Python dict[k]: the value when present; a missing key raises KeyError,
modelled as Option.none. -/
def pyIndex (d : List (String × PyVal)) (k : String) : Option PyVal :=
  List.lookup k d

/-- User record resolved from the external user store (only the id field
is read by the core). -/
structure UserInDB where
  id : String

/-- Public room record from the external room store. -/
structure PublicRoomInDB where
  id : String

/-- Private room record from the external room store. -/
structure PrivateRoomInDB where
  id : String

/-- Message record returned by the external message store; the store
assigns the id, the content is carried through. -/
structure MessageInDB where
  id : String
  content : PyVal

/-- Modelled from the spec: the external collaborators of the core
(section 6 of the spec), one field per interface the handlers call.
jwt_decode models jwt.decode returning the claims dict, or failing
(JWTError) which is Option.none; the remaining fields are the user store,
the room store with its membership predicates and open-enrollment join,
and the message store which assigns the id of a created message.  The
handlers pass payload values through unchecked in several places, so the
store functions take PyVal arguments. -/
structure Env where
  jwt_decode : PyVal → Option (List (String × PyVal))
  fetch_user_by_id : PyVal → Option UserInDB
  join_public_room : PyVal → PyVal → Bool × PyVal
  fetch_public_room_by_id : PyVal → Option PublicRoomInDB
  check_user_in_public_room : PyVal → PyVal → Bool
  fetch_private_room_by_id : PyVal → Option PrivateRoomInDB
  check_user_in_private_room : PyVal → PyVal → Bool
  create_message : PyVal → PyVal → String → PyVal → MessageInDB

/-- Observable action performed by a handler, in program order:
socket.io emits (event name, data, target room or broadcast), room
scoping changes, a server-initiated disconnect, a message persisted via
the message store, and a chunk appended to an upload sink. -/
inductive Action where
  | emit (event : String) (data : PyVal) (room : Option PyVal)
  | enter_room (sid : String) (room : PyVal)
  | leave_room (sid : String) (room : PyVal)
  | server_disconnect (sid : String)
  | create_message (room_id user_id : PyVal) (visibility : String) (content : PyVal)
  | file_append (path : String) (chunk : List Nat)

/-- The process-wide mutable state: the GlobalState counters of the source
(all_clients, rooms_client_count) plus the append-only upload sinks
addressed by path. -/
structure World where
  all_clients : Int
  rooms_client_count : List (String × Int)
  files : List (String × List Nat)

/-- The state at process start: no clients, no room counters, no sinks. -/
def w0 : World := ⟨0, [], []⟩

/-- Python d.get(k, v) on a string-keyed dict. -/
def dictGetD {α : Type} (d : List (String × α)) (k : String) (v : α) : α :=
  (List.lookup k d).getD v

/-- Python d[k] = v on a string-keyed dict (replace or append). -/
def dictSet {α : Type} : List (String × α) → String → α → List (String × α)
  | [], k, v => [(k, v)]
  | (k1, v1) :: rest, k, v =>
    if k1 = k then (k, v) :: rest else (k1, v1) :: dictSet rest k v

/-- Appending a chunk to the sink at a path: open in append mode creates
the file lazily on first write. -/
def fileAppend (fs : List (String × List Nat)) (path : String) (chunk : List Nat) :
    List (String × List Nat) :=
  dictSet fs path (dictGetD fs path [] ++ chunk)

/-- The bytes currently held by the sink at a path (empty when the file
does not exist yet). -/
def sinkBytes (w : World) (path : String) : List Nat :=
  dictGetD w.files path []

/-- The room counter the source reads with rooms_client_count.get(r, 0). -/
def roomCount (w : World) (r : String) : Int :=
  dictGetD w.rooms_client_count r 0

/-- verify_token of the source: decode the JWT, extract the sub claim,
fail (None) when decoding fails or the claim is absent, otherwise resolve
the subject through the user store. -/
def verify_token (env : Env) (token : PyVal) : Option UserInDB :=
  match env.jwt_decode token with
  | Option.none => Option.none
  | Option.some payload =>
    let user_id := pyGet payload "sub"
    if user_id.isNone then Option.none
    else env.fetch_user_by_id user_id

/-- The connect handler: a missing or falsy token, or a failed
verify_token, terminates the connection (server disconnect, nothing
emitted, no counter change); otherwise all_clients is incremented and the
new total is broadcast as client_count. -/
def connect (env : Env) (sid : String) (auth : List (String × PyVal)) (w : World) :
    World × List Action :=
  let token := pyGet auth "token"
  if !token.truthy then (w, [.server_disconnect sid])
  else
    match verify_token env token with
    | Option.none => (w, [.server_disconnect sid])
    | Option.some _user =>
      let w2 : World := { w with all_clients := w.all_clients + 1 }
      (w2, [.emit "client_count" (.int w2.all_clients) Option.none])

/-- The disconnect handler: decrement all_clients (no clamp) and
broadcast the new total as client_count. -/
def disconnect (_sid : String) (w : World) : World × List Action :=
  let w2 : World := { w with all_clients := w.all_clients - 1 }
  (w2, [.emit "client_count" (.int w2.all_clients) Option.none])

/-- The joining_public_room handler: validate that room_id and user_id are
strings, try the open-enrollment join through the room store; on success
enter the room, bump the room counter and broadcast room_count and
user_joined to the room; on store refusal emit the report to the sender. -/
def joining_public_room (env : Env) (sid : String) (data : List (String × PyVal))
    (w : World) : World × List Action :=
  let room_id := pyGet data "room_id"
  let user_id := pyGet data "user_id"
  if !(room_id.isStr && user_id.isStr) then
    (w, [.emit "error" (.str "Invalid room_id or user_id") (Option.some (.str sid))])
  else
    match room_id with
    | .str r =>
      let res := env.join_public_room room_id user_id
      if res.1 then
        let newCount := dictGetD w.rooms_client_count r 0 + 1
        let w2 : World := { w with rooms_client_count := dictSet w.rooms_client_count r newCount }
        (w2, [.enter_room sid room_id,
              .emit "room_count" (.int newCount) (Option.some room_id),
              .emit "user_joined" user_id (Option.some room_id)])
      else
        (w, [.emit "error" res.2 (Option.some (.str sid))])
    | _ => (w, [])

/-- The joining_private_room handler: the payload is indexed (KeyError on
a missing field), then the checks run in order — room exists, user
exists, user on the private access list — each failure emitting its own
error to the sender; only full success enters the room and broadcasts
user_joined.  No counter is touched on any path. -/
def joining_private_room (env : Env) (sid : String) (data : List (String × PyVal))
    (w : World) : Option (World × List Action) := do
  let room_id ← pyIndex data "room_id"
  let user_id ← pyIndex data "user_id"
  match env.fetch_private_room_by_id room_id with
  | Option.none =>
    Option.some (w, [.emit "error" (.str "Room not found") (Option.some (.str sid))])
  | Option.some _room =>
    match env.fetch_user_by_id user_id with
    | Option.none =>
      Option.some (w, [.emit "error" (.str "User not found") (Option.some (.str sid))])
    | Option.some _user =>
      if env.check_user_in_private_room room_id user_id then
        Option.some (w, [.enter_room sid room_id,
                         .emit "user_joined" user_id (Option.some room_id)])
      else
        Option.some (w, [.emit "error" (.str "Access denied") (Option.some (.str sid))])

/-- The leave_room handler: validate that room_id and user_id are strings,
leave the room scope, decrement the room counter clamping at zero, and
broadcast room_count and user_left to the room. -/
def leave_room (_env : Env) (sid : String) (data : List (String × PyVal))
    (w : World) : World × List Action :=
  let room_id := pyGet data "room_id"
  let user_id := pyGet data "user_id"
  if !(room_id.isStr && user_id.isStr) then
    (w, [.emit "error" (.str "Invalid room_id or user_id") (Option.some (.str sid))])
  else
    match room_id with
    | .str r =>
      let newCount := max (dictGetD w.rooms_client_count r 0 - 1) 0
      let w2 : World := { w with rooms_client_count := dictSet w.rooms_client_count r newCount }
      (w2, [.leave_room sid room_id,
            .emit "room_count" (.int newCount) (Option.some room_id),
            .emit "user_left" user_id (Option.some room_id)])
    | _ => (w, [])

/-- The send_public_message handler: index the payload, check the room
exists then the user exists (each failure emits a structured error to the
sender), then check public-room membership; a member gets the message
persisted and broadcast to the room, a non-member is dropped silently
(only a server-side print). -/
def send_public_message (env : Env) (sid : String) (data : List (String × PyVal))
    (w : World) : Option (World × List Action) := do
  let room_id ← pyIndex data "room_id"
  let message_sent ← pyIndex data "message"
  let user_id ← pyIndex data "user_id"
  match env.fetch_public_room_by_id room_id with
  | Option.none =>
    Option.some (w, [.emit "error" (.dict [("error", .str "Room not found")])
                      (Option.some (.str sid))])
  | Option.some _room =>
    match env.fetch_user_by_id user_id with
    | Option.none =>
      Option.some (w, [.emit "error" (.dict [("error", .str "User not found")])
                        (Option.some (.str sid))])
    | Option.some _user =>
      if env.check_user_in_public_room room_id user_id then
        let new_message := env.create_message room_id user_id "public" message_sent
        Option.some (w, [.create_message room_id user_id "public" message_sent,
                         .emit "message"
                           (.dict [("sid", .str sid),
                                   ("message", new_message.content),
                                   ("user_id", user_id)])
                           (Option.some room_id)])
      else
        Option.some (w, [])

/-- The send_private_message handler: index the payload, check the room
exists then the user exists (each failure emits a structured error to the
sender), then persist and broadcast unconditionally — membership of the
sender in the private room is never consulted. -/
def send_private_message (env : Env) (sid : String) (data : List (String × PyVal))
    (w : World) : Option (World × List Action) := do
  let room_id ← pyIndex data "room_id"
  let user_id ← pyIndex data "user_id"
  let message_sent ← pyIndex data "message"
  match env.fetch_private_room_by_id room_id with
  | Option.none =>
    Option.some (w, [.emit "error" (.dict [("error", .str "Room not found")])
                      (Option.some (.str sid))])
  | Option.some _room =>
    match env.fetch_user_by_id user_id with
    | Option.none =>
      Option.some (w, [.emit "error" (.dict [("error", .str "Users not found")])
                        (Option.some (.str sid))])
    | Option.some _user =>
      let new_message := env.create_message room_id user_id "private" message_sent
      Option.some (w, [.create_message room_id user_id "private" message_sent,
                       .emit "message"
                         (.dict [("sid", .str sid),
                                 ("message", message_sent),
                                 ("message_id", .str new_message.id),
                                 ("user_id", user_id)])
                         (Option.some room_id)])

/-- The upload_file handler: validate that room_id and user_id are strings
and that file_info is a dict with a truthy file_chunk (each failure emits
a validation error to the sender and mutates nothing); then build the
path uploads/{upload_id}_{filename}, append the chunk to that sink
(creating it on first write), and announce file_uploaded to the room.
file_size is read from file_info but never used.  A truthy chunk that is
not bytes makes the binary write raise (Option.none). -/
def upload_file (_env : Env) (sid : String) (data : List (String × PyVal))
    (w : World) : Option (World × List Action) :=
  let room_id := pyGet data "room_id"
  let user_id := pyGet data "user_id"
  let file_info := pyGet data "file_info"
  let file_chunk := pyGet data "file_chunk"
  if !(room_id.isStr && user_id.isStr) then
    Option.some (w, [.emit "error" (.str "Invalid room_id or user_id")
                      (Option.some (.str sid))])
  else if !file_info.isDict || !file_chunk.truthy then
    Option.some (w, [.emit "error" (.str "Invalid file_info or file_chunk")
                      (Option.some (.str sid))])
  else
    match file_info, file_chunk with
    | .dict fi, .bytes c =>
      let file_name := pyGet fi "filename"
      let _file_size := pyGet fi "file_size"
      let upload_id := pyGet fi "upload_id"
      let file_path := "uploads/" ++ upload_id.pyStr ++ "_" ++ file_name.pyStr
      Option.some ({ w with files := fileAppend w.files file_path c },
                   [.file_append file_path c,
                    .emit "file_uploaded"
                      (.dict [("file_url", .str file_path), ("filename", file_name)])
                      (Option.some room_id)])
    | _, _ => Option.none

/-- An inbound presence-relevant event: transport connect and disconnect
and the public-room join and leave events (the events the presence
counters react to). -/
inductive Event where
  | connect (sid : String) (auth : List (String × PyVal))
  | disconnect (sid : String)
  | joining_public_room (sid : String) (data : List (String × PyVal))
  | leave_room (sid : String) (data : List (String × PyVal))

/-- Dispatch one event to its handler and keep the new state. -/
def step (env : Env) (w : World) : Event → World × List Action
  | .connect sid auth => connect env sid auth w
  | .disconnect sid => disconnect sid w
  | .joining_public_room sid data => joining_public_room env sid data w
  | .leave_room sid data => leave_room env sid data w

/-- Run a sequence of events from a state. -/
def runEvents (env : Env) (w : World) (evs : List Event) : World :=
  evs.foldl (fun w1 e => (step env w1 e).1) w

/-- The payload of a well-formed join/leave event on room r by user u. -/
def roomData (r u : String) : List (String × PyVal) :=
  [("room_id", .str r), ("user_id", .str u)]

/-- A join event on room r (joining_public_room with well-formed data). -/
def joinEv (sid r u : String) : Event := .joining_public_room sid (roomData r u)

/-- A leave event on room r (leave_room with well-formed data). -/
def leaveEv (sid r u : String) : Event := .leave_room sid (roomData r u)

/-- A join/leave sequence on a fixed room encoded by booleans:
true is a join, false is a leave. -/
def roomEv (sid r u : String) (b : Bool) : Event :=
  if b then joinEv sid r u else leaveEv sid r u

/-- One pure update of the room counter: a join adds one, a leave
subtracts one clamping at zero. -/
def counterStep (c : Int) (b : Bool) : Int :=
  if b then c + 1 else max (c - 1) 0

/-- Whether a connect event authenticates successfully (truthy token and
verify_token resolves a user): exactly the condition under which the
connect handler increments all_clients. -/
def okConnect (env : Env) : Event → Bool
  | .connect _sid auth =>
    (pyGet auth "token").truthy && (verify_token env (pyGet auth "token")).isSome
  | _ => false

/-- Whether an event is a disconnect. -/
def isDisc : Event → Bool
  | .disconnect _ => true
  | _ => false

/-- The payload of a well-formed upload_file event. -/
def uploadData (r u : String) (fi : List (String × PyVal)) (c : List Nat) :
    List (String × PyVal) :=
  [("room_id", .str r), ("user_id", .str u),
   ("file_info", .dict fi), ("file_chunk", .bytes c)]

/-- Process one chunk of an upload session (an exception leaves the state
unchanged). -/
def uploadStep (env : Env) (sid r u : String) (fi : List (String × PyVal))
    (w : World) (c : List Nat) : World :=
  match upload_file env sid (uploadData r u fi c) w with
  | Option.some (w2, _) => w2
  | Option.none => w

/-- Feed a list of chunks of one upload session to upload_file. -/
def runUploads (env : Env) (sid r u : String) (fi : List (String × PyVal))
    (w : World) (chunks : List (List Nat)) : World :=
  chunks.foldl (uploadStep env sid r u fi) w

/-- The upload path the handler builds for a file_info dict. -/
def uploadPath (fi : List (String × PyVal)) : String :=
  "uploads/" ++ (pyGet fi "upload_id").pyStr ++ "_" ++ (pyGet fi "filename").pyStr

/-- A concrete environment used for witnesses and counterexamples: one
user u1 with token tok, one public room pub (open join always accepted,
membership only for u1), one private room priv whose access list holds
only vip, and a message store stamping id m1. -/
def envA : Env where
  jwt_decode := fun t =>
    match t with
    | .str "tok" => Option.some [("sub", .str "u1")]
    | .str "nosub" => Option.some [("aud", .str "chat")]
    | _ => Option.none
  fetch_user_by_id := fun v =>
    match v with
    | .str "u1" => Option.some ⟨"u1"⟩
    | .str "vip" => Option.some ⟨"vip"⟩
    | _ => Option.none
  join_public_room := fun r _u =>
    match r with
    | .str "missing" => (false, .str "Room not found")
    | _ => (true, .str "joined")
  fetch_public_room_by_id := fun v =>
    match v with
    | .str "pub" => Option.some ⟨"pub"⟩
    | _ => Option.none
  check_user_in_public_room := fun _r _u => false
  fetch_private_room_by_id := fun v =>
    match v with
    | .str "priv" => Option.some ⟨"priv"⟩
    | _ => Option.none
  check_user_in_private_room := fun _r u =>
    match u with
    | .str "vip" => true
    | _ => false
  create_message := fun _r _u _vis content => ⟨"m1", content⟩

/-! Helper lemmas about the dict and counter primitives. -/

theorem lookup_dictSet {α : Type} (d : List (String × α)) (k : String) (v : α) :
    List.lookup k (dictSet d k v) = Option.some v := by
  induction d with
  | nil => simp [dictSet, List.lookup]
  | cons kv rest ih =>
    obtain ⟨k1, v1⟩ := kv
    by_cases h : k1 = k
    · subst h
      simp [dictSet, List.lookup]
    · have hne : (k == k1) = false := by
        simp only [beq_eq_false_iff_ne, ne_eq]
        exact fun e => h e.symm
      simp [dictSet, h, List.lookup, hne, ih]

theorem dictGetD_dictSet {α : Type} (d : List (String × α)) (k : String) (v w : α) :
    dictGetD (dictSet d k v) k w = v := by
  simp [dictGetD, lookup_dictSet]

theorem counterStep_nonneg (c : Int) (b : Bool) (h : 0 ≤ c) : 0 ≤ counterStep c b := by
  cases b with
  | true => simp only [counterStep, if_pos]; omega
  | false =>
    simp only [counterStep, Bool.false_eq_true, if_neg, not_false_iff]
    exact le_max_right _ _

theorem foldl_counterStep_nonneg (bs : List Bool) (c : Int) (h : 0 ≤ c) :
    0 ≤ bs.foldl counterStep c := by
  induction bs generalizing c with
  | nil => simpa using h
  | cons b bs ih => exact ih _ (counterStep_nonneg c b h)

theorem foldl_counterStep_exact (bs : List Bool) (c : Int)
    (h : ∀ n, n ≤ bs.length →
      ((bs.take n).count false : Int) ≤ c + (bs.take n).count true) :
    bs.foldl counterStep c = c + (bs.count true : Int) - (bs.count false : Int) := by
  induction bs generalizing c with
  | nil => simp
  | cons b bs ih =>
    cases b with
    | true =>
      have hstep : counterStep c true = c + 1 := by simp [counterStep]
      have h2 : ∀ n, n ≤ bs.length →
          ((bs.take n).count false : Int) ≤ (c + 1) + (bs.take n).count true := by
        intro n hn
        have := h (n + 1) (by simpa using hn)
        simp only [List.take_succ_cons, List.count_cons] at this
        push_cast at this ⊢
        omega
      have hres := ih (c + 1) h2
      rw [List.foldl_cons, hstep, hres]
      simp [List.count_cons]
      omega
    | false =>
      have hc : (1 : Int) ≤ c := by
        have := h 1 (by simp)
        simpa using this
      have hmax : counterStep c false = c - 1 := by
        have h0 : (0 : Int) ≤ c - 1 := by omega
        simp [counterStep, max_eq_left h0]
      have h2 : ∀ n, n ≤ bs.length →
          ((bs.take n).count false : Int) ≤ (c - 1) + (bs.take n).count true := by
        intro n hn
        have := h (n + 1) (by simpa using hn)
        simp [List.take_succ_cons, List.count_cons] at this
        omega
      have hres := ih (c - 1) h2
      rw [List.foldl_cons, hmax, hres]
      simp [List.count_cons]
      omega

/-! Bridging lemmas: the handlers, run on well-formed join/leave payloads
for a fixed room, drive the room counter exactly like counterStep. -/

theorem joining_public_room_state (env : Env) (sid r u : String) (w : World)
    (hj : (env.join_public_room (PyVal.str r) (PyVal.str u)).1 = true) :
    (joining_public_room env sid (roomData r u) w).1
      = { w with rooms_client_count :=
            dictSet w.rooms_client_count r (roomCount w r + 1) } := by
  have hr : pyGet (roomData r u) "room_id" = PyVal.str r := rfl
  have hu : pyGet (roomData r u) "user_id" = PyVal.str u := rfl
  simp [joining_public_room, hr, hu, PyVal.isStr, hj, roomCount]

theorem leave_room_state (env : Env) (sid r u : String) (w : World) :
    (leave_room env sid (roomData r u) w).1
      = { w with rooms_client_count :=
            dictSet w.rooms_client_count r (max (roomCount w r - 1) 0) } := by
  have hr : pyGet (roomData r u) "room_id" = PyVal.str r := rfl
  have hu : pyGet (roomData r u) "user_id" = PyVal.str u := rfl
  simp [leave_room, hr, hu, PyVal.isStr, roomCount]

theorem roomCount_runEvents (env : Env) (sid r u : String)
    (hj : (env.join_public_room (PyVal.str r) (PyVal.str u)).1 = true)
    (bs : List Bool) (w : World) :
    roomCount (runEvents env w (bs.map (roomEv sid r u))) r
      = bs.foldl counterStep (roomCount w r) := by
  induction bs generalizing w with
  | nil => rfl
  | cons b bs ih =>
    have hstep : roomCount (step env w (roomEv sid r u b)).1 r
        = counterStep (roomCount w r) b := by
      cases b with
      | true =>
        show roomCount (joining_public_room env sid (roomData r u) w).1 r = _
        rw [joining_public_room_state env sid r u w hj]
        simp [roomCount, counterStep, dictGetD_dictSet]
      | false =>
        show roomCount (leave_room env sid (roomData r u) w).1 r = _
        rw [leave_room_state env sid r u w]
        simp [roomCount, counterStep, dictGetD_dictSet]
    calc roomCount (runEvents env w ((b :: bs).map (roomEv sid r u))) r
        = roomCount (runEvents env (step env w (roomEv sid r u b)).1
            (bs.map (roomEv sid r u))) r := rfl
      _ = bs.foldl counterStep (roomCount (step env w (roomEv sid r u b)).1 r) :=
          ih _
      _ = bs.foldl counterStep (counterStep (roomCount w r) b) := by rw [hstep]
      _ = (b :: bs).foldl counterStep (roomCount w r) := rfl

/-! Bridging lemmas: all_clients across a run of presence events. -/

theorem joining_public_room_all_clients (env : Env) (sid : String)
    (data : List (String × PyVal)) (w : World) :
    (joining_public_room env sid data w).1.all_clients = w.all_clients := by
  unfold joining_public_room
  dsimp only
  split
  · rfl
  · split
    · split
      · rfl
      · rfl
    · rfl

theorem leave_room_all_clients (env : Env) (sid : String)
    (data : List (String × PyVal)) (w : World) :
    (leave_room env sid data w).1.all_clients = w.all_clients := by
  unfold leave_room
  dsimp only
  split
  · rfl
  · split
    · rfl
    · rfl

theorem connect_all_clients (env : Env) (sid : String)
    (auth : List (String × PyVal)) (w : World) :
    (connect env sid auth w).1.all_clients
      = w.all_clients + (if okConnect env (.connect sid auth) then 1 else 0) := by
  unfold connect okConnect
  rcases ht : (pyGet auth "token").truthy with _ | _
  · simp [ht]
  · rcases hv : verify_token env (pyGet auth "token") with _ | user
    · simp [ht, hv]
    · simp [ht, hv]

theorem all_clients_runEvents (env : Env) (evs : List Event) (w : World) :
    (runEvents env w evs).all_clients
      = w.all_clients + (evs.countP (okConnect env) : Int)
          - (evs.countP isDisc : Int) := by
  induction evs generalizing w with
  | nil => simp [runEvents]
  | cons e evs ih =>
    have hstep : (step env w e).1.all_clients
        = w.all_clients + (if okConnect env e then 1 else 0)
            - (if isDisc e then 1 else 0) := by
      cases e with
      | connect sid auth =>
        simp [step, isDisc, connect_all_clients]
      | disconnect sid =>
        simp [step, disconnect, okConnect, isDisc]
      | joining_public_room sid data =>
        simp [step, okConnect, isDisc, joining_public_room_all_clients]
      | leave_room sid data =>
        simp [step, okConnect, isDisc, leave_room_all_clients]
    have hrest := ih (step env w e).1
    calc (runEvents env w (e :: evs)).all_clients
        = (runEvents env (step env w e).1 evs).all_clients := rfl
      _ = (step env w e).1.all_clients + (evs.countP (okConnect env) : Int)
            - (evs.countP isDisc : Int) := hrest
      _ = w.all_clients + ((e :: evs).countP (okConnect env) : Int)
            - ((e :: evs).countP isDisc : Int) := by
          rw [hstep]
          simp only [List.countP_cons]
          rcases h1 : okConnect env e <;> rcases h2 : isDisc e <;> push_cast <;> omega

/-! Bridging lemmas: the sink content across a run of upload chunks. -/

theorem sinkBytes_uploadStep (env : Env) (sid r u : String)
    (fi : List (String × PyVal)) (w : World) (c : List Nat) (hc : c ≠ []) :
    sinkBytes (uploadStep env sid r u fi w c) (uploadPath fi)
      = sinkBytes w (uploadPath fi) ++ c := by
  have htr : (PyVal.bytes c).truthy = true := by
    simp [PyVal.truthy, hc]
  have h1 : pyGet (uploadData r u fi c) "room_id" = PyVal.str r := rfl
  have h2 : pyGet (uploadData r u fi c) "user_id" = PyVal.str u := rfl
  have h3 : pyGet (uploadData r u fi c) "file_info" = PyVal.dict fi := rfl
  have h4 : pyGet (uploadData r u fi c) "file_chunk" = PyVal.bytes c := rfl
  simp [uploadStep, upload_file, h1, h2, h3, h4, PyVal.isStr, PyVal.isDict, htr,
    sinkBytes, fileAppend, uploadPath, dictGetD_dictSet]

theorem sinkBytes_runUploads (env : Env) (sid r u : String)
    (fi : List (String × PyVal)) (chunks : List (List Nat))
    (h : ∀ c ∈ chunks, c ≠ []) (w : World) :
    sinkBytes (runUploads env sid r u fi w chunks) (uploadPath fi)
      = sinkBytes w (uploadPath fi) ++ chunks.flatten := by
  induction chunks generalizing w with
  | nil => simp [runUploads]
  | cons c cs ih =>
    have hc : c ≠ [] := h c (List.mem_cons_self c cs)
    have hrest : ∀ d ∈ cs, d ≠ [] := fun d hd => h d (List.mem_cons_of_mem c hd)
    calc sinkBytes (runUploads env sid r u fi w (c :: cs)) (uploadPath fi)
        = sinkBytes (runUploads env sid r u fi (uploadStep env sid r u fi w c) cs)
            (uploadPath fi) := rfl
      _ = sinkBytes (uploadStep env sid r u fi w c) (uploadPath fi) ++ cs.flatten :=
          ih hrest _
      _ = sinkBytes w (uploadPath fi) ++ c ++ cs.flatten := by
          rw [sinkBytes_uploadStep env sid r u fi w c hc]
      _ = sinkBytes w (uploadPath fi) ++ (c :: cs).flatten := by
          simp [List.flatten_cons, List.append_assoc]

/-! Claim theorems. -/

/-- C1 (counterexample): the claimed formula fails as stated.  On the
sequence leave-then-join on room R from the empty registry, the counter
ends at 1, while (joins - leaves) clamped at 0 is 0: the room counter
after a sequence is not in general (joins - leaves) clamped at 0. -/
theorem room_count_clamp_formula_cex :
    roomCount (runEvents envA w0 ([false, true].map (roomEv "s" "R" "u"))) "R" = 1
    ∧ max ((([false, true].count true : Int)) - ([false, true].count false)) 0 = 0 := by
  exact ⟨rfl, by decide⟩

/-- C1 (amended): for every sequence of join/leave events on room R
starting from the empty presence registry, with the room store accepting
the joins, the counter never goes negative (each decrement clamps at
zero); and provided no prefix of the sequence has more leaves than joins,
the final counter equals (joins - leaves) clamped at 0. -/
theorem room_count_join_leave_clamped (env : Env) (sid r u : String)
    (hj : (env.join_public_room (PyVal.str r) (PyVal.str u)).1 = true)
    (bs : List Bool) :
    (∀ n, 0 ≤ roomCount (runEvents env w0 ((bs.take n).map (roomEv sid r u))) r)
    ∧ ((∀ n, n ≤ bs.length →
          ((bs.take n).count false : Int) ≤ (bs.take n).count true) →
        roomCount (runEvents env w0 (bs.map (roomEv sid r u))) r
          = max ((bs.count true : Int) - bs.count false) 0) := by
  have h0 : roomCount w0 r = 0 := rfl
  constructor
  · intro n
    rw [roomCount_runEvents env sid r u hj (bs.take n) w0, h0]
    exact foldl_counterStep_nonneg _ 0 le_rfl
  · intro hbal
    rw [roomCount_runEvents env sid r u hj bs w0, h0]
    have hex := foldl_counterStep_exact bs 0 (by
      intro n hn
      have := hbal n hn
      omega)
    have hfin := hbal bs.length le_rfl
    simp only [List.take_length] at hfin
    have hmax : max ((bs.count true : Int) - bs.count false) 0
        = (bs.count true : Int) - bs.count false := max_eq_left (by omega)
    rw [hex, hmax]
    omega

/-- C1 (witness): a concrete balanced run join-join-leave on room R ends
with the counter equal to the clamped formula (value 1). -/
theorem room_count_join_leave_clamped_witness :
    roomCount (runEvents envA w0 ([true, true, false].map (roomEv "s" "R" "u"))) "R"
      = max ((([true, true, false].count true : Int)) - [true, true, false].count false) 0 :=
  (room_count_join_leave_clamped envA "s" "R" "u" rfl [true, true, false]).2 (by decide)

/-- C7 (counterexample): a connect attempt with no token (which the
handler answers with a server disconnect and no increment) followed by
the disconnect event the closed transport fires drives totalClients to
-1: the disconnect handler decrements unconditionally. -/
theorem total_clients_negative_cex :
    (runEvents envA w0 [Event.connect "s" [], Event.disconnect "s"]).all_clients = -1
    ∧ (runEvents envA w0 [Event.connect "s" [], Event.disconnect "s"]).all_clients < 0 := by
  exact ⟨rfl, by decide⟩

/-- C7 (amended): after any sequence of events, totalClients equals
(successful connects - disconnects); in particular it is non-negative
whenever the disconnect events do not outnumber the successfully
authenticated connects. -/
theorem total_clients_nonneg_amended (env : Env) (evs : List Event)
    (h : evs.countP isDisc ≤ evs.countP (okConnect env)) :
    (runEvents env w0 evs).all_clients
      = (evs.countP (okConnect env) : Int) - (evs.countP isDisc : Int)
    ∧ 0 ≤ (runEvents env w0 evs).all_clients := by
  have he := all_clients_runEvents env evs w0
  have he2 : (runEvents env w0 evs).all_clients
      = (evs.countP (okConnect env) : Int) - (evs.countP isDisc : Int) := by
    rw [he]
    show (0 : Int) + _ - _ = _
    omega
  exact ⟨he2, by rw [he2]; omega⟩

/-- C7 (witness): one authenticated connect followed by one disconnect
ends with totalClients = 0, which is non-negative. -/
theorem total_clients_nonneg_amended_witness :
    (runEvents envA w0 [Event.connect "s" [("token", PyVal.str "tok")],
        Event.disconnect "s"]).all_clients
      = ([Event.connect "s" [("token", PyVal.str "tok")],
          Event.disconnect "s"].countP (okConnect envA) : Int)
        - ([Event.connect "s" [("token", PyVal.str "tok")],
            Event.disconnect "s"].countP isDisc : Int)
    ∧ 0 ≤ (runEvents envA w0 [Event.connect "s" [("token", PyVal.str "tok")],
        Event.disconnect "s"]).all_clients :=
  total_clients_nonneg_amended envA _ (by decide)

/-- A concrete file_info dict declaring total size 1 for upload u1 of
file f. -/
def fiCex : List (String × PyVal) :=
  [("filename", .str "f"), ("file_size", .int 1), ("upload_id", .str "u1")]

/-- C6 (counterexample): the handler never checks file_size, so the
accumulated offset can exceed the declared total size: after two accepted
one-byte chunks the sink for an upload declaring file_size 1 holds two
bytes. -/
theorem upload_size_bound_cex :
    pyGet fiCex "file_size" = PyVal.int 1
    ∧ (sinkBytes (runUploads envA "s" "r" "alice" fiCex w0 [[97], [98]])
        (uploadPath fiCex)).length = 2
    ∧ ¬((2 : Int) ≤ 1) := by
  exact ⟨rfl, rfl, by decide⟩

/-- C6 (amended): for every upload session, after N accepted chunks of
sizes s1..sN the sink holds exactly the concatenation of the chunks in
arrival order (so the accumulated offset grows monotonically by each
chunk size); the declared total size is never consulted and is not an
upper bound. -/
theorem upload_sink_accumulates (env : Env) (sid r u : String)
    (fi : List (String × PyVal)) (chunks : List (List Nat))
    (h : ∀ c ∈ chunks, c ≠ []) :
    (∀ n, sinkBytes (runUploads env sid r u fi w0 (chunks.take n)) (uploadPath fi)
        = (chunks.take n).flatten)
    ∧ (∀ n, (sinkBytes (runUploads env sid r u fi w0 (chunks.take n))
          (uploadPath fi)).length
        ≤ (sinkBytes (runUploads env sid r u fi w0 (chunks.take (n + 1)))
            (uploadPath fi)).length) := by
  have key : ∀ n, sinkBytes (runUploads env sid r u fi w0 (chunks.take n))
      (uploadPath fi) = (chunks.take n).flatten := by
    intro n
    have hsub : ∀ c ∈ chunks.take n, c ≠ [] :=
      fun c hc => h c (List.mem_of_mem_take hc)
    have := sinkBytes_runUploads env sid r u fi (chunks.take n) hsub w0
    simpa [sinkBytes, w0, dictGetD] using this
  refine ⟨key, fun n => ?_⟩
  rw [key n, key (n + 1), List.take_succ]
  simp

/-- C6 (witness): two concrete chunks accumulate to their concatenation
in arrival order. -/
theorem upload_sink_accumulates_witness :
    sinkBytes (runUploads envA "s" "r" "alice" fiCex w0 ([[97], [98]].take 2))
        (uploadPath fiCex)
      = ([[97], [98]].take 2).flatten :=
  (upload_sink_accumulates envA "s" "r" "alice" fiCex [[97], [98]] (by decide)).1 2

/-- C2: a connect attempt whose token is absent, malformed, has an
invalid signature, lacks a subject claim, or whose subject does not
resolve to an existing user (all of which make verify_token return None)
is terminated immediately: the only action is the server disconnect (no
error event, no client_count broadcast) and the state — in particular
totalClients — is unchanged.  Conversely a truthy token that verify_token
resolves to a user increments totalClients and broadcasts the updated
client_count. -/
theorem connect_auth_spec (env : Env) (sid : String) (auth : List (String × PyVal))
    (w : World) :
    ((pyGet auth "token").isNone = true ∨ verify_token env (pyGet auth "token") = Option.none →
      connect env sid auth w = (w, [Action.server_disconnect sid]))
    ∧ (∀ user : UserInDB, (pyGet auth "token").truthy = true →
        verify_token env (pyGet auth "token") = Option.some user →
        connect env sid auth w
          = ({ w with all_clients := w.all_clients + 1 },
             [Action.emit "client_count" (PyVal.int (w.all_clients + 1)) Option.none])) := by
  constructor
  · rintro (h | h)
    · have hnone : pyGet auth "token" = PyVal.none := by
        rcases htk : pyGet auth "token" <;> rw [htk] at h <;>
          first | rfl | simp [PyVal.isNone] at h
      unfold connect
      rw [hnone]
      simp [PyVal.truthy]
    · unfold connect
      rcases ht : (pyGet auth "token").truthy with _ | _
      · simp [ht]
      · simp [ht, h]
  · intro user ht hv
    unfold connect
    simp [ht, hv]

/-- C2 (witness): with the concrete store, a token that does not decode
is silently disconnected without touching the counter, and the valid
token tok of user u1 increments the counter and broadcasts it. -/
theorem connect_auth_spec_witness :
    connect envA "s" [("token", PyVal.str "bad")] w0 = (w0, [Action.server_disconnect "s"])
    ∧ connect envA "s" [("token", PyVal.str "tok")] w0
        = ({ w0 with all_clients := w0.all_clients + 1 },
           [Action.emit "client_count" (PyVal.int (w0.all_clients + 1)) Option.none]) :=
  ⟨(connect_auth_spec envA "s" [("token", PyVal.str "bad")] w0).1 (Or.inr rfl),
   (connect_auth_spec envA "s" [("token", PyVal.str "tok")] w0).2 ⟨"u1"⟩ rfl rfl⟩

/-- The payload of the C3 witness: room pub, sender u1, message hi. -/
def dataC3 : List (String × PyVal) :=
  [("room_id", .str "pub"), ("message", .str "hi"), ("user_id", .str "u1")]

/-- C3: a send_public_message whose room exists and whose sender exists
but is not a member of the room is dropped silently: the state is
unchanged and the handler performs no action at all — no message is
persisted, nothing is broadcast to the room and no error is emitted to
the sender. -/
theorem public_nonmember_silent_drop (env : Env) (sid : String)
    (data : List (String × PyVal)) (w : World) (rv mv uv : PyVal)
    (room : PublicRoomInDB) (user : UserInDB)
    (h1 : pyIndex data "room_id" = Option.some rv)
    (h2 : pyIndex data "message" = Option.some mv)
    (h3 : pyIndex data "user_id" = Option.some uv)
    (h4 : env.fetch_public_room_by_id rv = Option.some room)
    (h5 : env.fetch_user_by_id uv = Option.some user)
    (h6 : env.check_user_in_public_room rv uv = false) :
    send_public_message env sid data w = Option.some (w, []) := by
  simp [send_public_message, h1, h2, h3, h4, h5, h6]

/-- C3 (witness): in the concrete store user u1 exists, room pub exists,
u1 is not a member of pub, and the message is dropped with no action. -/
theorem public_nonmember_silent_drop_witness :
    send_public_message envA "s" dataC3 w0 = Option.some (w0, []) :=
  public_nonmember_silent_drop envA "s" dataC3 w0 (.str "pub") (.str "hi") (.str "u1")
    ⟨"pub"⟩ ⟨"u1"⟩ rfl rfl rfl rfl rfl rfl

/-- C4: joining_private_room makes its checks in order with distinguished
denial reasons: a missing room yields the error Room not found (whatever
the user store holds); with the room present, a missing user yields User
not found; with both present, a user not on the access list yields Access
denied with no mutation; only when all three conditions hold does the
handler enter the room and broadcast user_joined to the room. -/
theorem private_join_checks (env : Env) (sid : String) (data : List (String × PyVal))
    (w : World) (rv uv : PyVal)
    (h1 : pyIndex data "room_id" = Option.some rv)
    (h2 : pyIndex data "user_id" = Option.some uv) :
    (env.fetch_private_room_by_id rv = Option.none →
      joining_private_room env sid data w
        = Option.some (w, [Action.emit "error" (PyVal.str "Room not found")
            (Option.some (PyVal.str sid))]))
    ∧ (∀ room : PrivateRoomInDB, env.fetch_private_room_by_id rv = Option.some room →
        env.fetch_user_by_id uv = Option.none →
        joining_private_room env sid data w
          = Option.some (w, [Action.emit "error" (PyVal.str "User not found")
              (Option.some (PyVal.str sid))]))
    ∧ (∀ (room : PrivateRoomInDB) (user : UserInDB),
        env.fetch_private_room_by_id rv = Option.some room →
        env.fetch_user_by_id uv = Option.some user →
        env.check_user_in_private_room rv uv = false →
        joining_private_room env sid data w
          = Option.some (w, [Action.emit "error" (PyVal.str "Access denied")
              (Option.some (PyVal.str sid))]))
    ∧ (∀ (room : PrivateRoomInDB) (user : UserInDB),
        env.fetch_private_room_by_id rv = Option.some room →
        env.fetch_user_by_id uv = Option.some user →
        env.check_user_in_private_room rv uv = true →
        joining_private_room env sid data w
          = Option.some (w, [Action.enter_room sid rv,
                             Action.emit "user_joined" uv (Option.some rv)])) := by
  refine ⟨fun hr => ?_, fun room hr hu => ?_, fun room user hr hu hc => ?_,
    fun room user hr hu hc => ?_⟩
  · simp [joining_private_room, h1, h2, hr]
  · simp [joining_private_room, h1, h2, hr, hu]
  · simp [joining_private_room, h1, h2, hr, hu, hc]
  · simp [joining_private_room, h1, h2, hr, hu, hc]

/-- C4 (witness): in the concrete store, user u1 exists but is not on the
access list of private room priv and is denied, while user vip is on it
and is entered with user_joined broadcast. -/
theorem private_join_checks_witness :
    joining_private_room envA "s" [("room_id", PyVal.str "priv"), ("user_id", PyVal.str "u1")] w0
      = Option.some (w0, [Action.emit "error" (PyVal.str "Access denied")
          (Option.some (PyVal.str "s"))])
    ∧ joining_private_room envA "s" [("room_id", PyVal.str "priv"), ("user_id", PyVal.str "vip")] w0
        = Option.some (w0, [Action.enter_room "s" (PyVal.str "priv"),
            Action.emit "user_joined" (PyVal.str "vip") (Option.some (PyVal.str "priv"))]) :=
  ⟨(private_join_checks envA "s" [("room_id", PyVal.str "priv"), ("user_id", PyVal.str "u1")]
      w0 (.str "priv") (.str "u1") rfl rfl).2.2.1 ⟨"priv"⟩ ⟨"u1"⟩ rfl rfl rfl,
   (private_join_checks envA "s" [("room_id", PyVal.str "priv"), ("user_id", PyVal.str "vip")]
      w0 (.str "priv") (.str "vip") rfl rfl).2.2.2 ⟨"priv"⟩ ⟨"vip"⟩ rfl rfl rfl⟩

/-- C5: once the private room and the sender exist, send_private_message
persists the message and broadcasts it to the room unconditionally, and
the result does not depend on the private-room membership predicate at
all (no membership check of the sender against the access list). -/
theorem private_message_unconditional (env : Env) (sid : String)
    (data : List (String × PyVal)) (w : World) (rv uv mv : PyVal)
    (room : PrivateRoomInDB) (user : UserInDB)
    (h1 : pyIndex data "room_id" = Option.some rv)
    (h2 : pyIndex data "user_id" = Option.some uv)
    (h3 : pyIndex data "message" = Option.some mv)
    (h4 : env.fetch_private_room_by_id rv = Option.some room)
    (h5 : env.fetch_user_by_id uv = Option.some user) :
    send_private_message env sid data w
      = Option.some (w, [Action.create_message rv uv "private" mv,
          Action.emit "message"
            (PyVal.dict [("sid", PyVal.str sid), ("message", mv),
                         ("message_id", PyVal.str (env.create_message rv uv "private" mv).id),
                         ("user_id", uv)])
            (Option.some rv)])
    ∧ ∀ p, send_private_message { env with check_user_in_private_room := p } sid data w
        = send_private_message env sid data w := by
  have main : ∀ e : Env, e.fetch_private_room_by_id = env.fetch_private_room_by_id →
      e.fetch_user_by_id = env.fetch_user_by_id →
      e.create_message = env.create_message →
      send_private_message e sid data w
        = Option.some (w, [Action.create_message rv uv "private" mv,
            Action.emit "message"
              (PyVal.dict [("sid", PyVal.str sid), ("message", mv),
                           ("message_id", PyVal.str (env.create_message rv uv "private" mv).id),
                           ("user_id", uv)])
              (Option.some rv)]) := by
    intro e hf hu hc
    simp [send_private_message, h1, h2, h3, hf, hu, hc, h4, h5]
  refine ⟨main env rfl rfl rfl, fun p => ?_⟩
  rw [main { env with check_user_in_private_room := p } rfl rfl rfl, main env rfl rfl rfl]

/-- The payload of the C5 witness: private room priv, sender u1 (not on
the access list of priv), message yo. -/
def dataC5 : List (String × PyVal) :=
  [("room_id", .str "priv"), ("user_id", .str "u1"), ("message", .str "yo")]

/-- C5 (witness): user u1, who is not on the access list of priv, still
gets the message persisted and broadcast to the room. -/
theorem private_message_unconditional_witness :
    send_private_message envA "s" dataC5 w0
      = Option.some (w0, [Action.create_message (.str "priv") (.str "u1") "private" (.str "yo"),
          Action.emit "message"
            (PyVal.dict [("sid", PyVal.str "s"), ("message", PyVal.str "yo"),
                         ("message_id", PyVal.str (envA.create_message (.str "priv") (.str "u1")
                            "private" (.str "yo")).id),
                         ("user_id", PyVal.str "u1")])
            (Option.some (PyVal.str "priv"))]) :=
  (private_message_unconditional envA "s" dataC5 w0 (.str "priv") (.str "u1") (.str "yo")
    ⟨"priv"⟩ ⟨"u1"⟩ rfl rfl rfl rfl rfl).1

/-- C8: the disconnect handler decrements totalClients and broadcasts the
updated total as client_count (a global emit, room None); the per-room
counters, the upload sinks, and room scoping are untouched — its entire
action list is that single broadcast, so no room counter is decremented
and no room-scoped event is emitted. -/
theorem disconnect_frame (sid : String) (w : World) :
    (disconnect sid w).1.all_clients = w.all_clients - 1
    ∧ (disconnect sid w).1.rooms_client_count = w.rooms_client_count
    ∧ (disconnect sid w).1.files = w.files
    ∧ (disconnect sid w).2
        = [Action.emit "client_count" (PyVal.int (w.all_clients - 1)) Option.none] :=
  ⟨rfl, rfl, rfl, rfl⟩

/-- C9: upload_file with a non-string room_id or user_id answers with a
validation error to the sender only and mutates nothing; with those
strings but a non-dict file_info or a falsy (absent or empty) file_chunk
it likewise answers with a validation error and mutates nothing; on a
well-formed event it appends the chunk to the sink addressed by
(upload_id, filename) — creating it lazily on the first chunk — and emits
file_uploaded to the room after this (hence after every) chunk. -/
theorem upload_file_spec (env : Env) (sid : String) (data : List (String × PyVal))
    (w : World) :
    (((pyGet data "room_id").isStr = false ∨ (pyGet data "user_id").isStr = false) →
      upload_file env sid data w
        = Option.some (w, [Action.emit "error" (PyVal.str "Invalid room_id or user_id")
            (Option.some (PyVal.str sid))]))
    ∧ ((pyGet data "room_id").isStr = true → (pyGet data "user_id").isStr = true →
       ((pyGet data "file_info").isDict = false ∨ (pyGet data "file_chunk").truthy = false) →
      upload_file env sid data w
        = Option.some (w, [Action.emit "error" (PyVal.str "Invalid file_info or file_chunk")
            (Option.some (PyVal.str sid))]))
    ∧ (∀ (fi : List (String × PyVal)) (c : List Nat),
        pyGet data "file_info" = PyVal.dict fi →
        pyGet data "file_chunk" = PyVal.bytes c → c ≠ [] →
        (pyGet data "room_id").isStr = true → (pyGet data "user_id").isStr = true →
        upload_file env sid data w
          = Option.some ({ w with files := fileAppend w.files (uploadPath fi) c },
              [Action.file_append (uploadPath fi) c,
               Action.emit "file_uploaded"
                 (PyVal.dict [("file_url", PyVal.str (uploadPath fi)),
                              ("filename", pyGet fi "filename")])
                 (Option.some (pyGet data "room_id"))])
          ∧ sinkBytes { w with files := fileAppend w.files (uploadPath fi) c }
              (uploadPath fi) = sinkBytes w (uploadPath fi) ++ c) := by
  refine ⟨fun h => ?_, fun hr hu h => ?_, fun fi c hfi hc hne hr hu => ⟨?_, ?_⟩⟩
  · rcases h with h | h <;> simp [upload_file, h]
  · rcases h with h | h <;> simp [upload_file, hr, hu, h]
  · have htr : (pyGet data "file_chunk").truthy = true := by
      rw [hc]; simp [PyVal.truthy, hne]
    simp [upload_file, hr, hu, hfi, hc, htr, uploadPath, PyVal.isDict, PyVal.truthy, hne]
  · simp [sinkBytes, fileAppend, dictGetD_dictSet]

/-- C9 (witness): a non-string room_id yields the first validation error;
a missing file_info yields the second; a well-formed single-chunk event
appends the chunk and announces file_uploaded to the room. -/
theorem upload_file_spec_witness :
    upload_file envA "s" [("room_id", PyVal.int 5)] w0
      = Option.some (w0, [Action.emit "error" (PyVal.str "Invalid room_id or user_id")
          (Option.some (PyVal.str "s"))])
    ∧ upload_file envA "s" [("room_id", PyVal.str "r"), ("user_id", PyVal.str "u")] w0
        = Option.some (w0, [Action.emit "error" (PyVal.str "Invalid file_info or file_chunk")
            (Option.some (PyVal.str "s"))])
    ∧ upload_file envA "s" (uploadData "r" "u" fiCex [97]) w0
        = Option.some ({ w0 with files := fileAppend w0.files (uploadPath fiCex) [97] },
            [Action.file_append (uploadPath fiCex) [97],
             Action.emit "file_uploaded"
               (PyVal.dict [("file_url", PyVal.str (uploadPath fiCex)),
                            ("filename", pyGet fiCex "filename")])
               (Option.some (pyGet (uploadData "r" "u" fiCex [97]) "room_id"))]) :=
  ⟨(upload_file_spec envA "s" [("room_id", PyVal.int 5)] w0).1 (Or.inl rfl),
   (upload_file_spec envA "s" [("room_id", PyVal.str "r"), ("user_id", PyVal.str "u")] w0).2.1
      rfl rfl (Or.inl rfl),
   ((upload_file_spec envA "s" (uploadData "r" "u" fiCex [97]) w0).2.2 fiCex [97]
      rfl rfl (by decide) rfl rfl).1⟩

/-- The payload of the C10 witness: private room priv, user vip. -/
def dataC10 : List (String × PyVal) :=
  [("room_id", .str "priv"), ("user_id", .str "vip")]

/-- C10: a successful joining_private_room leaves the state — in
particular rooms_client_count — unchanged and emits no room_count event
(its only actions are entering the room and the user_joined broadcast);
by contrast a successful joining_public_room increments the counter of
the room and emits room_count with the new value to the room. -/
theorem private_join_no_presence (env : Env) (sid : String)
    (data : List (String × PyVal)) (w : World) (rv uv : PyVal)
    (room : PrivateRoomInDB) (user : UserInDB)
    (h1 : pyIndex data "room_id" = Option.some rv)
    (h2 : pyIndex data "user_id" = Option.some uv)
    (h3 : env.fetch_private_room_by_id rv = Option.some room)
    (h4 : env.fetch_user_by_id uv = Option.some user)
    (h5 : env.check_user_in_private_room rv uv = true)
    (r u : String)
    (hj : (env.join_public_room (PyVal.str r) (PyVal.str u)).1 = true) :
    joining_private_room env sid data w
      = Option.some (w, [Action.enter_room sid rv,
          Action.emit "user_joined" uv (Option.some rv)])
    ∧ (∀ d rm, Action.emit "room_count" d rm
        ∉ [Action.enter_room sid rv, Action.emit "user_joined" uv (Option.some rv)])
    ∧ roomCount (joining_public_room env sid (roomData r u) w).1 r = roomCount w r + 1
    ∧ Action.emit "room_count" (PyVal.int (roomCount w r + 1)) (Option.some (PyVal.str r))
        ∈ (joining_public_room env sid (roomData r u) w).2 := by
  refine ⟨?_, ?_, ?_, ?_⟩
  · simp [joining_private_room, h1, h2, h3, h4, h5]
  · intro d rm
    simp
  · rw [joining_public_room_state env sid r u w hj]
    simp [roomCount, dictGetD_dictSet]
  · have hr : pyGet (roomData r u) "room_id" = PyVal.str r := rfl
    have hu : pyGet (roomData r u) "user_id" = PyVal.str u := rfl
    simp [joining_public_room, hr, hu, PyVal.isStr, hj, roomCount, dictGetD]

/-- C10 (witness): the concrete vip join of priv performs only the enter
and the user_joined broadcast, while a public join of pub raises the
counter of pub from 0 to 1. -/
theorem private_join_no_presence_witness :
    joining_private_room envA "s" dataC10 w0
      = Option.some (w0, [Action.enter_room "s" (PyVal.str "priv"),
          Action.emit "user_joined" (PyVal.str "vip") (Option.some (PyVal.str "priv"))])
    ∧ roomCount (joining_public_room envA "s" (roomData "pub" "u1") w0).1 "pub"
        = roomCount w0 "pub" + 1 :=
  ⟨(private_join_no_presence envA "s" dataC10 w0 (.str "priv") (.str "vip")
      ⟨"priv"⟩ ⟨"vip"⟩ rfl rfl rfl rfl rfl "pub" "u1" rfl).1,
   (private_join_no_presence envA "s" dataC10 w0 (.str "priv") (.str "vip")
      ⟨"priv"⟩ ⟨"vip"⟩ rfl rfl rfl rfl rfl "pub" "u1" rfl).2.2.1⟩

end ChatApp
